import Mathlib

/-!
Shallow embedding of the per-call duplex audio/control relay of the
avr-sts-ultravox repository, translated from src/unnamed/part_003 (the
index.js variant with tool dispatch, lines 230-419), src/loadTools.js
(getToolHandler) and src/avr_tools/avrHangup.js, together with theorems
about its behaviour.
-/

/-- Model of a JavaScript runtime value as far as the tool-result protocol
inspects it: strings, numbers, booleans, null (also standing for undefined,
which behaves the same on every code path modelled here), and plain objects
represented as ordered field lists. -/
inductive JsValue where
  | str : String → JsValue
  | num : Int → JsValue
  | bool : Bool → JsValue
  | jsNull : JsValue
  | obj : List (String × JsValue) → JsValue

/-- A JavaScript object as an ordered association list of fields. -/
abbrev JsObj := List (String × JsValue)

/-- Property read `o[key]` on an object: first matching field, or `none` when
the property is absent (JavaScript `undefined`). -/
def oget : JsObj → String → Option JsValue
  | [], _ => none
  | (k, v) :: rest, key => if k = key then some v else oget rest key

/-- Property assignment semantics used by object literals: if the key is
already present its value is replaced in place (JavaScript keeps the original
insertion position), otherwise the field is appended. -/
def setField : JsObj → String → JsValue → JsObj
  | [], k, v => [(k, v)]
  | (k0, v0) :: rest, k, v =>
    if k0 = k then (k0, v) :: rest else (k0, v0) :: setField rest k v

/-- One step of building an object literal from a list of key/value pairs. -/
def setFieldStep (acc : JsObj) (p : String × JsValue) : JsObj :=
  setField acc p.1 p.2

/-- A JavaScript object literal, with spreads already expanded into the pair
list: later occurrences of a key overwrite earlier ones, as in
`\x7btype, ...result, invocationId\x7d` in src/unnamed/part_003 lines 337-341. -/
def objLit (ps : List (String × JsValue)) : JsObj :=
  ps.foldl setFieldStep []

/-- A thrown JavaScript error: its `message`, and, for axios-style errors,
the optional `response.data` body consulted by the catch block at
src/unnamed/part_003 lines 346-348. -/
structure JsError where
  message : String
  response : Option JsValue

/-- The value placed in the `errorMessage` field by the catch block
(src/unnamed/part_003 lines 346-348, 355-363): `toolError.response.data`
when present, otherwise the Error object itself - which JSON-serialises as
an empty object because an Error's own properties are non-enumerable. -/
def jsErrorToJsonValue (e : JsError) : JsValue :=
  match e.response with
  | some d => d
  | none => JsValue.obj []

/-- A client tool handler: receives the caller uuid and the invocation
parameters, and either returns a value or throws
(src/unnamed/part_003 line 305). -/
abbrev HandlerFn := String → JsValue → Except JsError JsValue

/-- A tool module file as loaded by require(): its `handler` export may be
absent (the `!handler` check at src/unnamed/part_003 line 287). -/
structure ToolModule where
  handler : Option HandlerFn

/-- The tool registry: the tool files reachable from the avr_tools and tools
directories, as an association list from tool name to module
(src/loadTools.js lines 98-121: the two directories searched in order
collapse to one name-to-module map). -/
abbrev Registry := List (String × ToolModule)

/-- A client_tool_invocation control message
(src/unnamed/part_003 lines 281-283). -/
structure Invocation where
  invocationId : String
  toolName : String
  parameters : JsValue

/-- The error thrown by getToolHandler when no tool file exists for the name
(src/loadTools.js line 116). -/
def toolNotFoundError (name : String) : JsError :=
  { message := "Tool \"" ++ name ++ "\" not found in any available directory"
    response := none }

/-- Embedding of getToolHandler (src/loadTools.js lines 98-121): when no tool
file with the requested name exists in either directory, an Error is THROWN;
otherwise the module's `handler` export is returned, which may itself be
absent. -/
def getToolHandler (reg : Registry) (name : String) : Except JsError (Option HandlerFn) :=
  match List.lookup name reg with
  | none => Except.error (toolNotFoundError name)
  | some m => Except.ok m.handler

/-- The fixed contract-violation diagnostic sent when a structured handler
result lacks string `result`/`responseType` fields
(src/unnamed/part_003 lines 325-326). -/
def clientToolResultDiagnostic : String :=
  "Client tool result must be a string or an object with string \"result\" and \"responseType\" properties."

/-- The TypeError raised by reading `.result` on a null/undefined handler
return value (src/unnamed/part_003 line 318). -/
def nullReadError : JsError :=
  { message := "TypeError: Cannot read properties of null", response := none }

/-- The client_tool_result message for a plain-string handler result
(src/unnamed/part_003 lines 309-316). -/
def toolStringMsg (s : String) (invId : String) : JsObj :=
  objLit [("type", JsValue.str "client_tool_result"),
          ("result", JsValue.str s),
          ("responseType", JsValue.str "tool-response"),
          ("invocationId", JsValue.str invId)]

/-- The client_tool_result message for a handler result violating the shape
contract (src/unnamed/part_003 lines 321-330). -/
def toolShapeErrorMsg (invId : String) : JsObj :=
  objLit [("type", JsValue.str "client_tool_result"),
          ("errorType", JsValue.str "implementation-error"),
          ("errorMessage", JsValue.str clientToolResultDiagnostic),
          ("responseType", JsValue.str "tool-response"),
          ("invocationId", JsValue.str invId)]

/-- The client_tool_result message for a valid structured handler result:
the object spread `\x7btype, ...result, invocationId\x7d` of
src/unnamed/part_003 lines 336-342. -/
def toolSpreadMsg (fields : JsObj) (invId : String) : JsObj :=
  objLit ([("type", JsValue.str "client_tool_result")] ++ fields
          ++ [("invocationId", JsValue.str invId)])

/-- The client_tool_result message for an unresolved handler: the `!handler`
branch of src/unnamed/part_003 lines 287-297. Reachable only when the tool
file exists but exports no handler, since getToolHandler throws when the
name is unknown. -/
def toolUndefinedMsg (name : String) (invId : String) : JsObj :=
  objLit [("type", JsValue.str "client_tool_result"),
          ("invocationId", JsValue.str invId),
          ("errorType", JsValue.str "undefined"),
          ("errorMessage", JsValue.str ("Client tool " ++ name ++ " is not registered"))]

/-- The client_tool_result message sent from the catch block around the whole
dispatch (src/unnamed/part_003 lines 345-363). -/
def toolCatchMsg (e : JsError) (invId : String) : JsObj :=
  objLit [("type", JsValue.str "client_tool_result"),
          ("responseType", JsValue.str "tool-response"),
          ("errorType", JsValue.str "implementation-error"),
          ("errorMessage", jsErrorToJsonValue e),
          ("invocationId", JsValue.str invId)]

/-- Whether an optional property value is a string: the
`typeof result.result === "string"` tests of src/unnamed/part_003
lines 318-319. -/
def isStrOpt : Option JsValue → Bool
  | some (JsValue.str _) => true
  | _ => false

/-- Whether a handler return value passes the structured-result shape check of
src/unnamed/part_003 lines 317-320: it must expose string `result` and
`responseType` properties. Non-objects other than strings expose no
properties, so they fail the check. -/
def resultShapeOk : JsValue → Bool
  | JsValue.obj fields =>
      isStrOpt (oget fields "result") && isStrOpt (oget fields "responseType")
  | _ => false

/-- Normalisation of a (successfully returned) handler result into the single
client_tool_result message sent for it (src/unnamed/part_003 lines 307-343):
a string gets the success shape; reading `.result` on null/undefined throws,
landing in the catch block; an object is either spread into the message or
rejected with the fixed diagnostic; numbers and booleans have no `result`
property and are rejected likewise. -/
def dispatchResult (result : JsValue) (invId : String) : JsObj :=
  match result with
  | JsValue.str s => toolStringMsg s invId
  | JsValue.jsNull => toolCatchMsg nullReadError invId
  | JsValue.obj fields =>
      if isStrOpt (oget fields "result") && isStrOpt (oget fields "responseType")
      then toolSpreadMsg fields invId
      else toolShapeErrorMsg invId
  | _ => toolShapeErrorMsg invId

/-- Embedding of the client_tool_invocation case of src/unnamed/part_003
lines 281-366: resolve the handler (its thrown error lands in the catch
block), report a missing handler export, run the handler (its thrown error
lands in the catch block), and normalise the result. The returned list
collects the ultravoxWebSocket.send calls performed. -/
def dispatch (reg : Registry) (uuid : String) (inv : Invocation) : List JsObj :=
  match getToolHandler reg inv.toolName with
  | Except.error e => [toolCatchMsg e inv.invocationId]
  | Except.ok none => [toolUndefinedMsg inv.toolName inv.invocationId]
  | Except.ok (some handler) =>
    match handler uuid inv.parameters with
    | Except.error e => [toolCatchMsg e inv.invocationId]
    | Except.ok r => [dispatchResult r inv.invocationId]

/-- A parsed control message from the backend: the `type` discriminants
handled by the switch at src/unnamed/part_003 lines 271-389. -/
inductive ControlMessage where
  | callStarted (callId : String)
  | stateMsg (st : String)
  | clientToolInvocation (inv : Invocation)
  | transcript (role medium text : String) (final : Bool)
  | playbackClearBuffer
  | errorEvent
  | other (t : String)

/-- Embedding of the non-binary branch of the message handler
(src/unnamed/part_003 lines 267-390). `JSON.parse` of the frame text is
modelled by its outcome, `parsed`: the handler applies it with NO try/catch,
so a parse failure propagates out of the handler unchanged. On success the
switch updates `callId` on call_started, dispatches tool invocations, and
only logs everything else. Returns the new callId and the messages sent. -/
def handleTextFrame (reg : Registry) (uuid : String) (callId : Option String)
    (parsed : Except JsError ControlMessage) :
    Except JsError (Option String × List JsObj) :=
  match parsed with
  | Except.error e => Except.error e
  | Except.ok m =>
    match m with
    | ControlMessage.callStarted cid => Except.ok (some cid, [])
    | ControlMessage.clientToolInvocation inv => Except.ok (callId, dispatch reg uuid inv)
    | _ => Except.ok (callId, [])

/-- The success value returned by the avrHangup tool handler
(src/avr_tools/avrHangup.js lines 15-18): an object with a `responseText`
string and a `responseType` string, but no `result` field. -/
def avrHangupSuccessResult (msg : String) : JsValue :=
  JsValue.obj [("responseText", JsValue.str msg),
               ("responseType", JsValue.str "tool-response")]

/-- The mutable relay state of one session for backend-to-caller audio
(src/unnamed/part_003 lines 240-242): the byte accumulator, the first-chunk
flag, and the recorded reference timestamp (null until the first chunk).
Bytes are abstracted as naturals. -/
structure RelayState where
  ultravoxChunksQueue : List Nat
  isFirstUltravoxChunk : Bool
  ultravoxStartTime : Option Nat
deriving DecidableEq

/-- The state at session start (src/unnamed/part_003 lines 240-242). -/
def initialRelayState : RelayState :=
  { ultravoxChunksQueue := [], isFirstUltravoxChunk := true, ultravoxStartTime := none }

/-- One inbound binary frame: its arrival time (the value Date.now() yields
while handling it; the two Date.now() calls in the handler are modelled as
equal) and its payload bytes. -/
structure AudioFrame where
  time : Nat
  data : List Nat
deriving DecidableEq

/-- Embedding of the binary branch of the message handler
(src/unnamed/part_003 lines 247-266): on the first chunk ever, record the
reference time and clear the flag - the flag is never set back to true; append
the chunk to the queue; then, if the recorded time is truthy (nonzero) and at
least 100 ms have elapsed since it, emit the whole queue and clear it.
Returns the new state and the optional res.write payload. -/
def onBinaryFrame (s : RelayState) (f : AudioFrame) : RelayState × Option (List Nat) :=
  let started : RelayState :=
    if s.isFirstUltravoxChunk then
      { s with ultravoxStartTime := some f.time, isFirstUltravoxChunk := false }
    else s
  let grown : List Nat := started.ultravoxChunksQueue ++ f.data
  match started.ultravoxStartTime with
  | some t0 =>
    if t0 ≠ 0 ∧ 100 ≤ f.time - t0 then
      ({ started with ultravoxChunksQueue := [] }, some grown)
    else
      ({ started with ultravoxChunksQueue := grown }, none)
  | none => ({ started with ultravoxChunksQueue := grown }, none)

/-- Process a sequence of binary frames, collecting the per-frame flush
outputs (none when the frame did not flush). -/
def runRelay : RelayState → List AudioFrame → RelayState × List (Option (List Nat))
  | s, [] => (s, [])
  | s, f :: rest =>
    let p := onBinaryFrame s f
    let q := runRelay p.1 rest
    (q.1, p.2 :: q.2)

/-- Total number of bytes written to the caller stream by the flushes. -/
def flushedBytes (outs : List (Option (List Nat))) : Nat :=
  ((outs.filterMap id).map List.length).sum

/-- Total number of bytes received in the binary frames. -/
def receivedBytes (fs : List AudioFrame) : Nat :=
  (fs.map (fun f => f.data.length)).sum

/-- Length of an optional flush output. -/
def optLen (o : Option (List Nat)) : Nat :=
  (o.map List.length).getD 0

/-- Which frames of a trace triggered a flush, starting from session start. -/
def flushFlags (fs : List AudioFrame) : List Bool :=
  ((runRelay initialRelayState fs).2).map Option.isSome

/-- Index of the last flush strictly before frame j, if any. -/
def lastFlushBefore (flags : List Bool) (j : Nat) : Option Nat :=
  ((List.range j).filter (fun i => flags.getD i false)).getLast?

/-- Index of the first frame following the previous flush (or session start)
relative to frame j: the reference frame the claim measures 100 ms from. -/
def refFrameIdx (flags : List Bool) (j : Nat) : Nat :=
  match lastFlushBefore flags j with
  | none => 0
  | some i => i + 1

/-- Arrival time of frame j of a trace. -/
def frameTime (fs : List AudioFrame) (j : Nat) : Nat :=
  (fs.getD j { time := 0, data := [] }).time

/-- Decidable rendering of the claimed timing discipline: every flush occurs
at least 100 ms after the first frame following the previous flush (or
session start). -/
def relayFlushTimingClaim (fs : List AudioFrame) : Bool :=
  (List.range fs.length).all (fun j =>
    !((flushFlags fs).getD j false)
    || decide (100 ≤ frameTime fs j - frameTime fs (refFrameIdx (flushFlags fs) j)))

/-- Teardown actions a termination handler can perform on the other leg. -/
inductive TeardownAction where
  | endCallerStream
  | closeBackend
deriving DecidableEq

/-- The variables in scope inside handleAudioStream
(src/unnamed/part_003 lines 230-419): the function declares req, res, uuid,
ultravoxWebSocket, ultravoxChunksQueue, isFirstUltravoxChunk,
ultravoxStartTime and callId - and no variable named interval. -/
def handleAudioStreamScope : List String :=
  ["req", "res", "uuid", "ultravoxWebSocket", "ultravoxChunksQueue",
   "isFirstUltravoxChunk", "ultravoxStartTime", "callId"]

/-- Evaluating an identifier: referencing a name not in scope throws a
ReferenceError. -/
def lookupVar (scope : List String) (x : String) : Except JsError Unit :=
  if x ∈ scope then Except.ok ()
  else Except.error { message := "ReferenceError: " ++ x ++ " is not defined", response := none }

/-- The ultravoxWebSocket close handler (src/unnamed/part_003 lines 393-396):
ends the caller response stream. -/
def onWsClose : List TeardownAction := [TeardownAction.endCallerStream]

/-- The ultravoxWebSocket error handler (src/unnamed/part_003 lines 398-401):
ends the caller response stream. -/
def onWsError : List TeardownAction := [TeardownAction.endCallerStream]

/-- The req end handler (src/unnamed/part_003 lines 410-413): closes the
backend channel. -/
def onReqEnd : List TeardownAction := [TeardownAction.closeBackend]

/-- The req error handler (src/unnamed/part_003 lines 415-419): it first
evaluates `clearInterval(interval)`, but no variable `interval` is declared
anywhere in handleAudioStream, so the reference throws before
`ultravoxWebSocket.close()` is reached. -/
def onReqError : Except JsError (List TeardownAction) :=
  match lookupVar handleAudioStreamScope "interval" with
  | Except.error e => Except.error e
  | Except.ok _ => Except.ok [TeardownAction.closeBackend]

/-- A registered tool whose handler returns the plain string "hi". -/
def demoHandler : HandlerFn := fun _ _ => Except.ok (JsValue.str "hi")

/-- A registry containing exactly the demo string tool. -/
def demoRegistry : Registry := [("echo", { handler := some demoHandler })]

/-- A concrete invocation of the demo string tool. -/
def demoStrInvocation : Invocation :=
  { invocationId := "inv-1", toolName := "echo", parameters := JsValue.obj [] }

/-- A concrete structured handler result with valid shape, an extra field,
and an invocationId field of its own. -/
def demoSpreadFields : JsObj :=
  [("result", JsValue.str "ok"), ("responseType", JsValue.str "tool-response"),
   ("invocationId", JsValue.str "EVIL"), ("note", JsValue.str "x")]

/-- A registered tool whose handler returns the structured demo result. -/
def demoSpreadHandler : HandlerFn := fun _ _ => Except.ok (JsValue.obj demoSpreadFields)

/-- A registry containing exactly the structured demo tool. -/
def demoSpreadRegistry : Registry := [("spready", { handler := some demoSpreadHandler })]

/-- A concrete invocation of the structured demo tool. -/
def demoSpreadInvocation : Invocation :=
  { invocationId := "inv-2", toolName := "spready", parameters := JsValue.obj [] }

/-- Three binary frames: session start at 1 ms, then frames at 101 ms and
102 ms. -/
def c1Trace : List AudioFrame :=
  [{ time := 1, data := [10] }, { time := 101, data := [20] }, { time := 102, data := [30] }]

theorem oget_setField_self (o : JsObj) (k : String) (v : JsValue) :
    oget (setField o k v) k = some v := by
  induction o with
  | nil => simp [setField, oget]
  | cons p rest ih =>
    rcases p with ⟨k0, v0⟩
    by_cases h : k0 = k
    · subst h
      simp [setField, oget]
    · simp [setField, oget, h, ih]

theorem oget_setField_ne (o : JsObj) (k : String) (v : JsValue) (key : String)
    (h : k ≠ key) : oget (setField o k v) key = oget o key := by
  induction o with
  | nil => simp [setField, oget, h]
  | cons p rest ih =>
    rcases p with ⟨k0, v0⟩
    by_cases h0 : k0 = k
    · subst h0
      simp [setField, oget, h]
    · simp [setField, oget, h0, ih]

theorem oget_foldl_setField_notmem (fs : JsObj) (init : JsObj) (k : String)
    (h : k ∉ fs.map Prod.fst) :
    oget (fs.foldl setFieldStep init) k = oget init k := by
  induction fs generalizing init with
  | nil => simp
  | cons p rest ih =>
    rcases p with ⟨k1, v1⟩
    simp only [List.map_cons, List.mem_cons, not_or] at h
    rw [List.foldl_cons, ih _ h.2]
    exact oget_setField_ne init k1 v1 k (fun hk => h.1 hk.symm)

theorem oget_foldl_setField_of_nodup (fs : JsObj) (init : JsObj) (k : String)
    (v : JsValue) (hnd : (fs.map Prod.fst).Nodup) (hget : oget fs k = some v) :
    oget (fs.foldl setFieldStep init) k = some v := by
  induction fs generalizing init with
  | nil => simp [oget] at hget
  | cons p rest ih =>
    rcases p with ⟨k0, v0⟩
    simp only [List.map_cons, List.nodup_cons] at hnd
    by_cases h : k0 = k
    · subst h
      have hv : some v0 = some v := by
        rw [← hget]
        simp [oget]
      have hv2 : v0 = v := Option.some.inj hv
      rw [List.foldl_cons, oget_foldl_setField_notmem rest _ k0 hnd.1, ← hv2]
      exact oget_setField_self init k0 v0
    · simp only [oget, if_neg h] at hget
      rw [List.foldl_cons]
      exact ih (setField init k0 v0) hnd.2 hget

theorem oget_toolStringMsg_result (s invId : String) :
    oget (toolStringMsg s invId) "result" = some (JsValue.str s) := by
  simp only [toolStringMsg, objLit, List.foldl_cons, List.foldl_nil, setFieldStep]
  rw [oget_setField_ne _ _ _ _ (by decide), oget_setField_ne _ _ _ _ (by decide),
    oget_setField_self]

theorem oget_toolStringMsg_responseType (s invId : String) :
    oget (toolStringMsg s invId) "responseType" = some (JsValue.str "tool-response") := by
  simp only [toolStringMsg, objLit, List.foldl_cons, List.foldl_nil, setFieldStep]
  rw [oget_setField_ne _ _ _ _ (by decide), oget_setField_self]

theorem oget_toolStringMsg_invocationId (s invId : String) :
    oget (toolStringMsg s invId) "invocationId" = some (JsValue.str invId) := by
  simp only [toolStringMsg, objLit, List.foldl_cons, List.foldl_nil, setFieldStep]
  rw [oget_setField_self]

theorem oget_toolShapeErrorMsg_invocationId (invId : String) :
    oget (toolShapeErrorMsg invId) "invocationId" = some (JsValue.str invId) := by
  simp only [toolShapeErrorMsg, objLit, List.foldl_cons, List.foldl_nil, setFieldStep]
  rw [oget_setField_self]

theorem oget_toolShapeErrorMsg_errorType (invId : String) :
    oget (toolShapeErrorMsg invId) "errorType" = some (JsValue.str "implementation-error") := by
  simp only [toolShapeErrorMsg, objLit, List.foldl_cons, List.foldl_nil, setFieldStep]
  rw [oget_setField_ne _ _ _ _ (by decide), oget_setField_ne _ _ _ _ (by decide),
    oget_setField_ne _ _ _ _ (by decide), oget_setField_self]

theorem oget_toolShapeErrorMsg_errorMessage (invId : String) :
    oget (toolShapeErrorMsg invId) "errorMessage" = some (JsValue.str clientToolResultDiagnostic) := by
  simp only [toolShapeErrorMsg, objLit, List.foldl_cons, List.foldl_nil, setFieldStep]
  rw [oget_setField_ne _ _ _ _ (by decide), oget_setField_ne _ _ _ _ (by decide),
    oget_setField_self]

theorem oget_toolCatchMsg_invocationId (e : JsError) (invId : String) :
    oget (toolCatchMsg e invId) "invocationId" = some (JsValue.str invId) := by
  simp only [toolCatchMsg, objLit, List.foldl_cons, List.foldl_nil, setFieldStep]
  rw [oget_setField_self]

theorem oget_toolCatchMsg_errorType (e : JsError) (invId : String) :
    oget (toolCatchMsg e invId) "errorType" = some (JsValue.str "implementation-error") := by
  simp only [toolCatchMsg, objLit, List.foldl_cons, List.foldl_nil, setFieldStep]
  rw [oget_setField_ne _ _ _ _ (by decide), oget_setField_ne _ _ _ _ (by decide),
    oget_setField_self]

theorem oget_toolUndefinedMsg_invocationId (name invId : String) :
    oget (toolUndefinedMsg name invId) "invocationId" = some (JsValue.str invId) := by
  simp only [toolUndefinedMsg, objLit, List.foldl_cons, List.foldl_nil, setFieldStep]
  rw [oget_setField_ne _ _ _ _ (by decide), oget_setField_ne _ _ _ _ (by decide),
    oget_setField_self]

theorem oget_toolSpreadMsg_invocationId (fields : JsObj) (invId : String) :
    oget (toolSpreadMsg fields invId) "invocationId" = some (JsValue.str invId) := by
  simp only [toolSpreadMsg, objLit, List.foldl_append, List.foldl_cons, List.foldl_nil,
    setFieldStep]
  exact oget_setField_self _ _ _

theorem oget_toolSpreadMsg_passthrough (fields : JsObj) (invId k : String) (v : JsValue)
    (hnd : (fields.map Prod.fst).Nodup) (hk : k ≠ "invocationId")
    (hget : oget fields k = some v) :
    oget (toolSpreadMsg fields invId) k = some v := by
  simp only [toolSpreadMsg, objLit, List.foldl_append, List.foldl_cons, List.foldl_nil,
    setFieldStep]
  rw [oget_setField_ne _ _ _ _ (Ne.symm hk)]
  exact oget_foldl_setField_of_nodup fields _ k v hnd hget

theorem oget_dispatchResult_invocationId (r : JsValue) (invId : String) :
    oget (dispatchResult r invId) "invocationId" = some (JsValue.str invId) := by
  cases r with
  | str s => exact oget_toolStringMsg_invocationId s invId
  | jsNull => exact oget_toolCatchMsg_invocationId nullReadError invId
  | num n => exact oget_toolShapeErrorMsg_invocationId invId
  | bool b => exact oget_toolShapeErrorMsg_invocationId invId
  | obj fields =>
    simp only [dispatchResult]
    by_cases h : (isStrOpt (oget fields "result") && isStrOpt (oget fields "responseType")) = true
    · rw [if_pos h]
      exact oget_toolSpreadMsg_invocationId fields invId
    · rw [if_neg h]
      exact oget_toolShapeErrorMsg_invocationId invId

theorem onBinaryFrame_bytes (s : RelayState) (f : AudioFrame) :
    optLen (onBinaryFrame s f).2 + ((onBinaryFrame s f).1.ultravoxChunksQueue).length
      = s.ultravoxChunksQueue.length + f.data.length := by
  rcases s with ⟨q, first, st⟩
  cases first <;> cases st <;>
    simp [onBinaryFrame, optLen] <;>
    (try split) <;> simp_all

theorem onBinaryFrame_flush_eq (s : RelayState) (f : AudioFrame) (s2 : RelayState)
    (out : List Nat) (h : onBinaryFrame s f = (s2, some out)) :
    out = s.ultravoxChunksQueue ++ f.data ∧ s2.ultravoxChunksQueue = [] := by
  rcases s with ⟨q, first, st⟩
  cases first <;> cases st <;> simp [onBinaryFrame] at h <;>
    (try split at h) <;> simp_all <;> rw [← h.1]

theorem flushedBytes_cons (o : Option (List Nat)) (outs : List (Option (List Nat))) :
    flushedBytes (o :: outs) = optLen o + flushedBytes outs := by
  cases o <;> simp [flushedBytes, optLen]

theorem receivedBytes_cons (f : AudioFrame) (rest : List AudioFrame) :
    receivedBytes (f :: rest) = f.data.length + receivedBytes rest := by
  simp [receivedBytes]

theorem relay_conservation (fs : List AudioFrame) : ∀ (s : RelayState),
    flushedBytes ((runRelay s fs).2) + ((runRelay s fs).1.ultravoxChunksQueue).length
      = s.ultravoxChunksQueue.length + receivedBytes fs := by
  induction fs with
  | nil =>
    intro s
    simp [runRelay, flushedBytes, receivedBytes]
  | cons f rest ih =>
    intro s
    have hstep := onBinaryFrame_bytes s f
    have hrest := ih (onBinaryFrame s f).1
    simp only [runRelay, flushedBytes_cons, receivedBytes_cons]
    omega

theorem runRelay_flags (fs : List AudioFrame) : ∀ (q : List Nat) (t0 : Nat),
    (runRelay ⟨q, false, some t0⟩ fs).1.isFirstUltravoxChunk = false
    ∧ (runRelay ⟨q, false, some t0⟩ fs).1.ultravoxStartTime = some t0
    ∧ ((runRelay ⟨q, false, some t0⟩ fs).2).map Option.isSome
        = fs.map (fun f => decide (t0 ≠ 0 ∧ 100 ≤ f.time - t0)) := by
  induction fs with
  | nil =>
    intro q t0
    simp [runRelay]
  | cons f rest ih =>
    intro q t0
    by_cases hc : t0 ≠ 0 ∧ 100 ≤ f.time - t0
    · have hstep : onBinaryFrame ⟨q, false, some t0⟩ f
          = (⟨[], false, some t0⟩, some (q ++ f.data)) := by
        simp [onBinaryFrame, hc]
      obtain ⟨ih1, ih2, ih3⟩ := ih [] t0
      refine ⟨?_, ?_, ?_⟩
      · simpa [runRelay, hstep] using ih1
      · simpa [runRelay, hstep] using ih2
      · simp only [runRelay, hstep, List.map_cons, Option.isSome_some]
        rw [ih3, decide_eq_true hc]
    · have hstep : onBinaryFrame ⟨q, false, some t0⟩ f
          = (⟨q ++ f.data, false, some t0⟩, none) := by
        simp [onBinaryFrame, hc]
      obtain ⟨ih1, ih2, ih3⟩ := ih (q ++ f.data) t0
      refine ⟨?_, ?_, ?_⟩
      · simpa [runRelay, hstep] using ih1
      · simpa [runRelay, hstep] using ih2
      · simp only [runRelay, hstep, List.map_cons, Option.isSome_none]
        rw [ih3, decide_eq_false hc]

/-- Claim C1 counterexample: on the trace with frames at 1 ms, 101 ms and
102 ms, the frame at 101 ms flushes, the frame at 102 ms is the first frame
following that flush, and it flushes again immediately - 0 ms after itself -
because the code never resets the first-chunk flag or the reference
timestamp after a flush. So it is false that no flush occurs less than
100 ms after the first frame following the previous flush. -/
theorem C1_counterexample : relayFlushTimingClaim c1Trace = false := by decide

/-- Claim C1 (corrected): in src/unnamed/part_003 lines 247-266 the timer
reference point is recorded exactly once, on the first binary frame of the
whole session, and is never reset; afterwards a frame flushes the buffer
precisely when the (truthy) session-initial reference lies at least 100 ms
in the past - so after the first flush every later frame flushes
immediately. -/
theorem C1_single_reference_flush_rule : ∀ (f0 : AudioFrame) (rest : List AudioFrame),
    (runRelay initialRelayState (f0 :: rest)).1.isFirstUltravoxChunk = false
    ∧ (runRelay initialRelayState (f0 :: rest)).1.ultravoxStartTime = some f0.time
    ∧ ((runRelay initialRelayState (f0 :: rest)).2).map Option.isSome
        = (f0 :: rest).map (fun f => decide (f0.time ≠ 0 ∧ 100 ≤ f.time - f0.time)) := by
  intro f0 rest
  have hno : ¬(f0.time ≠ 0 ∧ 100 ≤ f0.time - f0.time) := by omega
  have hstep : onBinaryFrame initialRelayState f0
      = (⟨f0.data, false, some f0.time⟩, none) := by
    simp [onBinaryFrame, initialRelayState, hno]
  obtain ⟨h1, h2, h3⟩ := runRelay_flags rest f0.data f0.time
  have hd : decide (f0.time ≠ 0 ∧ 100 ≤ f0.time - f0.time) = false := decide_eq_false hno
  refine ⟨?_, ?_, ?_⟩
  · simpa [runRelay, hstep] using h1
  · simpa [runRelay, hstep] using h2
  · simp only [runRelay, hstep, List.map_cons, Option.isSome_none]
    rw [h3, hd]

/-- Claim C2 counterexample: a session receiving a single one-byte frame
flushes nothing at all - the byte sits in the accumulator and is dropped when
the session ends (the close handlers at src/unnamed/part_003 lines 393-401
end the stream without writing the residue) - so total bytes flushed does
not equal total bytes received. -/
theorem C2_counterexample :
    flushedBytes ((runRelay initialRelayState [{ time := 1, data := [7] }]).2)
      ≠ receivedBytes [{ time := 1, data := [7] }] := by decide

/-- Claim C2 (corrected): the bytes flushed to the caller plus the bytes
still sitting in the accumulator when the session ends equal the bytes
received, and every flush writes the entire accumulated buffer as one write
and clears it; equality of flushed and received totals holds only when the
final accumulator is empty. -/
theorem C2_byte_conservation :
    (∀ fs : List AudioFrame,
        flushedBytes ((runRelay initialRelayState fs).2)
          + ((runRelay initialRelayState fs).1.ultravoxChunksQueue).length
          = receivedBytes fs)
    ∧ (∀ (s : RelayState) (f : AudioFrame) (s2 : RelayState) (out : List Nat),
        onBinaryFrame s f = (s2, some out) →
          out = s.ultravoxChunksQueue ++ f.data ∧ s2.ultravoxChunksQueue = []) := by
  constructor
  · intro fs
    have h := relay_conservation fs initialRelayState
    simpa [initialRelayState] using h
  · exact onBinaryFrame_flush_eq

/-- Witness for C2_byte_conservation: a concrete flushing step writes the
whole accumulator and clears it. -/
theorem C2_byte_conservation_witness :
    [(9 : Nat), 7] = RelayState.ultravoxChunksQueue ⟨[9], false, some 1⟩
        ++ AudioFrame.data ⟨200, [7]⟩
    ∧ RelayState.ultravoxChunksQueue ⟨[], false, some 1⟩ = [] :=
  C2_byte_conservation.2 ⟨[9], false, some 1⟩ ⟨200, [7]⟩ ⟨[], false, some 1⟩ [9, 7] rfl

/-- Claim C3 counterexample: invoking a tool name absent from an empty
registry yields a result whose errorType is "implementation-error", not
"undefined", because getToolHandler throws for an unknown name and the
dispatch catch block answers the invocation. -/
theorem C3_counterexample :
    oget ((dispatch [] "u"
        { invocationId := "cx3", toolName := "foo", parameters := JsValue.obj [] }).headD [])
      "errorType" = some (JsValue.str "implementation-error")
    ∧ "implementation-error" ≠ "undefined" := by
  constructor
  · rfl
  · decide

/-- Claim C3 (corrected): for every invocation whose tool name is not in the
registry, getToolHandler throws, so dispatch sends exactly one result on the
catch path, with errorType "implementation-error" (the thrown error, whose
message names the tool, JSON-serialises as an empty object in errorMessage)
and the original invocationId; no handler is invoked. The errorType
"undefined" branch fires only when the name resolves to a module without a
handler export. -/
theorem C3_unregistered_tool_dispatch :
    ∀ (reg : Registry) (uuid : String) (inv : Invocation),
      List.lookup inv.toolName reg = none →
      dispatch reg uuid inv = [toolCatchMsg (toolNotFoundError inv.toolName) inv.invocationId]
      ∧ oget (toolCatchMsg (toolNotFoundError inv.toolName) inv.invocationId) "errorType"
          = some (JsValue.str "implementation-error")
      ∧ oget (toolCatchMsg (toolNotFoundError inv.toolName) inv.invocationId) "invocationId"
          = some (JsValue.str inv.invocationId) := by
  intro reg uuid inv hlk
  refine ⟨?_, oget_toolCatchMsg_errorType _ _, oget_toolCatchMsg_invocationId _ _⟩
  simp [dispatch, getToolHandler, hlk]

/-- Witness for C3_unregistered_tool_dispatch at a concrete empty registry. -/
theorem C3_unregistered_tool_dispatch_witness :
    dispatch [] "u" { invocationId := "w3", toolName := "ghost", parameters := JsValue.obj [] }
      = [toolCatchMsg (toolNotFoundError "ghost") "w3"]
    ∧ oget (toolCatchMsg (toolNotFoundError "ghost") "w3") "errorType"
        = some (JsValue.str "implementation-error")
    ∧ oget (toolCatchMsg (toolNotFoundError "ghost") "w3") "invocationId"
        = some (JsValue.str "w3") :=
  C3_unregistered_tool_dispatch [] "u"
    { invocationId := "w3", toolName := "ghost", parameters := JsValue.obj [] } rfl

/-- Claim C4 counterexample: the diagnostic actually emitted for a handler
result of the wrong shape is the string starting with "Client tool result
must be ..." and quoting the property names, which is not the exact string
the claim asserts. -/
theorem C4_counterexample :
    oget (dispatchResult (JsValue.obj []) "cx4") "errorMessage"
      = some (JsValue.str clientToolResultDiagnostic)
    ∧ clientToolResultDiagnostic
      ≠ "tool result must be a string or an object with string result and responseType properties." := by
  constructor
  · rfl
  · decide

/-- Claim C4 (corrected): every handler return value that is not a plain
string, is not null/undefined (those instead throw on property access and are
answered from the catch block, still with errorType "implementation-error"),
and lacks string result/responseType properties is answered with errorType
"implementation-error" and errorMessage exactly the fixed diagnostic
quoted from src/unnamed/part_003 lines 325-326. -/
theorem C4_shape_violation_message :
    ∀ (v : JsValue) (invId : String),
      (∀ s, v ≠ JsValue.str s) →
      v ≠ JsValue.jsNull →
      resultShapeOk v = false →
      dispatchResult v invId = toolShapeErrorMsg invId
      ∧ oget (toolShapeErrorMsg invId) "errorType" = some (JsValue.str "implementation-error")
      ∧ oget (toolShapeErrorMsg invId) "errorMessage"
          = some (JsValue.str clientToolResultDiagnostic) := by
  intro v invId hstr hnull hshape
  refine ⟨?_, oget_toolShapeErrorMsg_errorType invId, oget_toolShapeErrorMsg_errorMessage invId⟩
  cases v with
  | str s => exact absurd rfl (hstr s)
  | jsNull => exact absurd rfl hnull
  | num n => rfl
  | bool b => rfl
  | obj fields =>
    simp only [resultShapeOk] at hshape
    simp [dispatchResult, hshape]

/-- Witness for C4_shape_violation_message at the empty object. -/
theorem C4_shape_violation_message_witness :
    dispatchResult (JsValue.obj []) "w4" = toolShapeErrorMsg "w4"
    ∧ oget (toolShapeErrorMsg "w4") "errorType" = some (JsValue.str "implementation-error")
    ∧ oget (toolShapeErrorMsg "w4") "errorMessage"
        = some (JsValue.str clientToolResultDiagnostic) :=
  C4_shape_violation_message (JsValue.obj []) "w4"
    (fun s h => JsValue.noConfusion h) (fun h => JsValue.noConfusion h) rfl

/-- Claim C5 (confirmed): every dispatched invocation is answered by exactly
one client_tool_result message, and on every path - unresolved tool (thrown
or missing handler), handler exception, contract violation, and success -
that message carries the invocationId of the invocation it answers. -/
theorem C5_one_result_with_invocationId :
    ∀ (reg : Registry) (uuid : String) (inv : Invocation),
      (dispatch reg uuid inv).length = 1
      ∧ ∀ m ∈ dispatch reg uuid inv,
          oget m "invocationId" = some (JsValue.str inv.invocationId) := by
  intro reg uuid inv
  rcases hg : getToolHandler reg inv.toolName with e | oh
  · constructor
    · simp [dispatch, hg]
    · intro m hm
      simp [dispatch, hg] at hm
      subst hm
      exact oget_toolCatchMsg_invocationId e inv.invocationId
  · rcases oh with _ | handler
    · constructor
      · simp [dispatch, hg]
      · intro m hm
        simp [dispatch, hg] at hm
        subst hm
        exact oget_toolUndefinedMsg_invocationId inv.toolName inv.invocationId
    · rcases hr : handler uuid inv.parameters with e2 | r
      · constructor
        · simp [dispatch, hg, hr]
        · intro m hm
          simp [dispatch, hg, hr] at hm
          subst hm
          exact oget_toolCatchMsg_invocationId e2 inv.invocationId
      · constructor
        · simp [dispatch, hg, hr]
        · intro m hm
          simp [dispatch, hg, hr] at hm
          subst hm
          exact oget_dispatchResult_invocationId r inv.invocationId

/-- Witness for C5_one_result_with_invocationId at a concrete registry and
invocation. -/
theorem C5_one_result_with_invocationId_witness :
    (dispatch [] "u" { invocationId := "w5", toolName := "nobody", parameters := JsValue.obj [] }).length = 1
    ∧ ∀ m ∈ dispatch [] "u" { invocationId := "w5", toolName := "nobody", parameters := JsValue.obj [] },
        oget m "invocationId" = some (JsValue.str "w5") :=
  C5_one_result_with_invocationId [] "u"
    { invocationId := "w5", toolName := "nobody", parameters := JsValue.obj [] }

/-- Claim C6 (code_bug): src/unnamed/part_003 line 269 calls JSON.parse on
every non-binary frame with no try/catch anywhere in the message handler, so
an unparseable payload makes the parse exception escape the (async) handler -
an unhandled rejection, not a logged no-op - instead of discarding the frame
and continuing. This theorem evaluates the handler at a failed parse: the
error propagates out unchanged. -/
theorem C6_parse_error_escapes :
    handleTextFrame [] "u" none
      (Except.error { message := "SyntaxError: Unexpected token", response := none })
      = Except.error { message := "SyntaxError: Unexpected token", response := none } := rfl

/-- Claim C7 (code_bug): the backend-side close and error handlers end the
caller stream and the caller-side end handler closes the backend channel, but
the caller-side error handler first evaluates clearInterval(interval) with no
variable named interval in scope (src/unnamed/part_003 line 417), so it
throws a ReferenceError before ever reaching ultravoxWebSocket.close() - on
that path the backend channel is NOT closed. -/
theorem C7_teardown_handlers :
    onWsClose = [TeardownAction.endCallerStream]
    ∧ onWsError = [TeardownAction.endCallerStream]
    ∧ onReqEnd = [TeardownAction.closeBackend]
    ∧ onReqError = Except.error
        { message := "ReferenceError: " ++ "interval" ++ " is not defined", response := none } :=
  ⟨rfl, rfl, rfl, rfl⟩

/-- Claim C8 (code_bug): the success value of the repository's own avrHangup
tool - an object with string responseText and responseType fields - fails the
dispatcher's shape check, which demands a string `result` property
(src/unnamed/part_003 lines 317-320), so a successful hangup is reported to
the backend as an implementation-error instead of being accepted. -/
theorem C8_responseText_rejected :
    dispatchResult (avrHangupSuccessResult "Hangup done") "inv-8" = toolShapeErrorMsg "inv-8"
    ∧ oget (toolShapeErrorMsg "inv-8") "errorType" = some (JsValue.str "implementation-error")
    ∧ oget (toolShapeErrorMsg "inv-8") "errorMessage"
        = some (JsValue.str clientToolResultDiagnostic) := by
  refine ⟨?_, oget_toolShapeErrorMsg_errorType _, oget_toolShapeErrorMsg_errorMessage _⟩
  rfl

/-- Claim C9 (confirmed): when the resolved handler returns a plain string s,
the single emitted client_tool_result has result = s, responseType =
"tool-response", and the invocationId of the invocation
(src/unnamed/part_003 lines 307-316). -/
theorem C9_string_result_message :
    ∀ (reg : Registry) (uuid : String) (inv : Invocation) (m : ToolModule)
      (handler : HandlerFn) (s : String),
      List.lookup inv.toolName reg = some m →
      m.handler = some handler →
      handler uuid inv.parameters = Except.ok (JsValue.str s) →
      dispatch reg uuid inv = [toolStringMsg s inv.invocationId]
      ∧ oget (toolStringMsg s inv.invocationId) "result" = some (JsValue.str s)
      ∧ oget (toolStringMsg s inv.invocationId) "responseType"
          = some (JsValue.str "tool-response")
      ∧ oget (toolStringMsg s inv.invocationId) "invocationId"
          = some (JsValue.str inv.invocationId) := by
  intro reg uuid inv m handler s hlk hh hcall
  refine ⟨?_, oget_toolStringMsg_result s inv.invocationId,
    oget_toolStringMsg_responseType s inv.invocationId,
    oget_toolStringMsg_invocationId s inv.invocationId⟩
  simp [dispatch, getToolHandler, hlk, hh, hcall, dispatchResult]

/-- Witness for C9_string_result_message at the demo registry. -/
theorem C9_string_result_message_witness :
    dispatch demoRegistry "u" demoStrInvocation = [toolStringMsg "hi" "inv-1"]
    ∧ oget (toolStringMsg "hi" "inv-1") "result" = some (JsValue.str "hi")
    ∧ oget (toolStringMsg "hi" "inv-1") "responseType" = some (JsValue.str "tool-response")
    ∧ oget (toolStringMsg "hi" "inv-1") "invocationId" = some (JsValue.str "inv-1") :=
  C9_string_result_message demoRegistry "u" demoStrInvocation
    { handler := some demoHandler } demoHandler "hi" rfl rfl rfl

/-- Claim C10 (confirmed): a structured handler result accepted by the shape
check is spread into the outbound message, so every one of its fields (keys
being unique, as in any JavaScript object) appears verbatim in the message,
and the trailing invocationId assignment overrides any invocationId field the
handler may have returned (src/unnamed/part_003 lines 336-342). -/
theorem C10_spread_passthrough_and_override :
    ∀ (reg : Registry) (uuid : String) (inv : Invocation) (m : ToolModule)
      (handler : HandlerFn) (fields : JsObj) (r rt : String),
      List.lookup inv.toolName reg = some m →
      m.handler = some handler →
      handler uuid inv.parameters = Except.ok (JsValue.obj fields) →
      oget fields "result" = some (JsValue.str r) →
      oget fields "responseType" = some (JsValue.str rt) →
      (fields.map Prod.fst).Nodup →
      dispatch reg uuid inv = [toolSpreadMsg fields inv.invocationId]
      ∧ oget (toolSpreadMsg fields inv.invocationId) "invocationId"
          = some (JsValue.str inv.invocationId)
      ∧ ∀ (k : String) (v : JsValue), k ≠ "invocationId" → oget fields k = some v →
          oget (toolSpreadMsg fields inv.invocationId) k = some v := by
  intro reg uuid inv m handler fields r rt hlk hh hcall hres hrt hnd
  refine ⟨?_, oget_toolSpreadMsg_invocationId fields inv.invocationId,
    fun k v hk hget => oget_toolSpreadMsg_passthrough fields inv.invocationId k v hnd hk hget⟩
  simp [dispatch, getToolHandler, hlk, hh, hcall, dispatchResult, hres, hrt, isStrOpt]

/-- Witness for C10_spread_passthrough_and_override: the extra field comes
through verbatim and the handler's own invocationId field is overridden. -/
theorem C10_spread_passthrough_and_override_witness :
    dispatch demoSpreadRegistry "u" demoSpreadInvocation = [toolSpreadMsg demoSpreadFields "inv-2"]
    ∧ oget (toolSpreadMsg demoSpreadFields "inv-2") "invocationId" = some (JsValue.str "inv-2")
    ∧ oget (toolSpreadMsg demoSpreadFields "inv-2") "note" = some (JsValue.str "x") := by
  have h := C10_spread_passthrough_and_override demoSpreadRegistry "u" demoSpreadInvocation
    { handler := some demoSpreadHandler } demoSpreadHandler demoSpreadFields "ok" "tool-response"
    rfl rfl rfl rfl rfl (by decide)
  exact ⟨h.1, h.2.1, h.2.2 "note" (JsValue.str "x") (by decide) rfl⟩

/-- Witness for C1_single_reference_flush_rule on a two-frame trace: the
reference stays at the first frame's time and only the second frame
flushes. -/
theorem C1_single_reference_flush_rule_witness :
    (runRelay initialRelayState [{ time := 5, data := [1] }, { time := 106, data := [2] }]).1.isFirstUltravoxChunk = false
    ∧ (runRelay initialRelayState [{ time := 5, data := [1] }, { time := 106, data := [2] }]).1.ultravoxStartTime = some 5
    ∧ ((runRelay initialRelayState [{ time := 5, data := [1] }, { time := 106, data := [2] }]).2).map Option.isSome
        = [false, true] :=
  C1_single_reference_flush_rule { time := 5, data := [1] } [{ time := 106, data := [2] }]
